import Mathlib

/-!
Shallow embedding of the risk-assessment core of the "Will It Rain" weather
application (files `app/core/timeutil.py` and `app/core/risk.py`).

Modelling conventions:
* Python floats are modelled by `ℚ` (all thresholds and weights in the source
  are exact decimals, and every claim is about exact arithmetic).
* A Python `datetime` is modelled by the number of minutes since an arbitrary
  epoch (`Int`), read as local wall-clock time: the source only attaches a
  `pytz` timezone to naive datetimes and compares datetimes that carry the
  same timezone, so timezone localisation is the identity on wall-clock
  minutes.  The Python floor division on a positive modulus coincides with
  `Int` division (`Int.ediv`) in Lean.  Sub-minute fields are immaterial to
  hourly data and are not modelled.
* Python `round(x, n)` is rounding half to even, modelled
  exactly on `ℚ`.
* Optional values are `Option`, lists of optional readings are
  `List (Option ℚ)`; Python truthiness of a list is emptiness, truthiness of
  an optional model object is `Option.isSome`.
-/

/-- Maximum of a list of rationals, as the Python `max` on a non-empty list
(`0` on the empty list, which the source never queries). -/
def listMax : List ℚ → ℚ
  | [] => 0
  | x :: xs => xs.foldl max x

/-- Minimum of a list of rationals, as the Python `min` on a non-empty list
(`0` on the empty list, which the source never queries). -/
def listMin : List ℚ → ℚ
  | [] => 0
  | x :: xs => xs.foldl min x

/-- Round a rational to the nearest integer, ties to even — the semantics of
the Python builtin `round` on exactly-representable values. -/
def pyRoundHalfToEven (x : ℚ) : ℤ :=
  let n := ⌊x⌋
  let f := x - n
  if f < 1/2 then n
  else if 1/2 < f then n + 1
  else if n % 2 = 0 then n else n + 1

/-- The Python `round(x, 1)` on exact rationals. -/
def pyRound1 (q : ℚ) : ℚ := (pyRoundHalfToEven (q * 10) : ℚ) / 10

/-- The Python `round(x, 2)` on exact rationals. -/
def pyRound2 (q : ℚ) : ℚ := (pyRoundHalfToEven (q * 100) : ℚ) / 100

/-! ## `app/core/timeutil.py` — time-of-day constants and the series slicer

Times of day are minutes after midnight (`Nat`), e.g. `time(18, 0)` is
`18 * 60`. -/

def MORNING_START : Nat := 6 * 60
def MORNING_END : Nat := 12 * 60
def AFTERNOON_START : Nat := 12 * 60
def AFTERNOON_END : Nat := 18 * 60
def EVENING_START : Nat := 18 * 60
def EVENING_END : Nat := 21 * 60
def NIGHT_START : Nat := 21 * 60
def NIGHT_END : Nat := 6 * 60

/-- `get_time_window_bounds` of `timeutil.py`: the dictionary lookup with the
Evening interval as the `.get` default. -/
def get_time_window_bounds (time_window : String) : Nat × Nat :=
  if time_window = "Morning" then (MORNING_START, MORNING_END)
  else if time_window = "Afternoon" then (AFTERNOON_START, AFTERNOON_END)
  else if time_window = "Evening" then (EVENING_START, EVENING_END)
  else if time_window = "Night" then (NIGHT_START, NIGHT_END)
  else (EVENING_START, EVENING_END)

/-- Calendar day of a wall-clock minute count (Python `datetime.date`,
i.e. floor division by the number of minutes in a day). -/
def dayOf (dt : Int) : Int := dt / 1440

/-- Local midnight of the day containing `dt`. -/
def midnightOf (dt : Int) : Int := dt / 1440 * 1440

/-- The Python `dt.replace(hour=h, minute=m)` at minute granularity: keep the
calendar day, substitute the time of day. -/
def replaceTime (dt : Int) (tod : Nat) : Int := midnightOf dt + tod

/-- The `start_datetime` / `end_datetime` computed inside
`slice_hourly_data_for_window` (lines 52–67 of `timeutil.py`): resolve the
window bounds, anchor them on `target_date` via `replace`, and for the Night
window anchor the end on `target_date + timedelta(days=1)`. -/
def window_datetimes (target_date : Int) (time_window : String) : Int × Int :=
  let bounds := get_time_window_bounds time_window
  if time_window = "Night" then
    (replaceTime target_date bounds.1, replaceTime (target_date + 1440) bounds.2)
  else
    (replaceTime target_date bounds.1, replaceTime target_date bounds.2)

/-- The filtering loop of `slice_hourly_data_for_window`: walk `times` with a
running index `i`, keep every timestamp inside `[s, e)`, and pair it with
`data[i]` when the index is in range and `None` otherwise. -/
def sliceLoop (s e : Int) (data : List (Option ℚ)) :
    List Int → Nat → List Int × List (Option ℚ)
  | [], _ => ([], [])
  | t :: ts, i =>
    let rest := sliceLoop s e data ts (i + 1)
    if s ≤ t ∧ t < e then (t :: rest.1, (data[i]?.getD none) :: rest.2)
    else rest

/-- `slice_hourly_data_for_window` of `timeutil.py`.  The `timezone_str`
argument only localises wall-clock datetimes in the source and is the
identity in this embedding. -/
def slice_hourly_data_for_window (times : List Int) (data : List (Option ℚ))
    (target_date : Int) (time_window : String) (timezone_str : String) :
    List Int × List (Option ℚ) :=
  if times = [] ∨ data = [] then ([], [])
  else
    let bounds := window_datetimes target_date time_window
    sliceLoop bounds.1 bounds.2 data times 0

/-- The statistics dictionary returned by `get_daypart_stats`. -/
structure SliceStats where
  count : Nat
  mean : Option ℚ
  max : Option ℚ
  min : Option ℚ
  sum : Option ℚ
deriving DecidableEq, Repr

/-- `get_daypart_stats` of `timeutil.py`. -/
def get_daypart_stats (times : List Int) (data : List (Option ℚ))
    (target_date : Int) (time_window : String) (timezone_str : String) :
    SliceStats :=
  let filtered_data :=
    (slice_hourly_data_for_window times data target_date time_window timezone_str).2
  if filtered_data = [] then ⟨0, none, none, none, none⟩
  else
    let valid_data := filtered_data.filterMap id
    if valid_data = [] then ⟨filtered_data.length, none, none, none, none⟩
    else
      ⟨valid_data.length,
       some (valid_data.sum / (valid_data.length : ℚ)),
       some (listMax valid_data),
       some (listMin valid_data),
       some valid_data.sum⟩

/-! ## `app/core/risk.py` — weights, thresholds and the factor scorers -/

def RAIN_WEIGHT : ℚ := 0.40
def TEMPERATURE_WEIGHT : ℚ := 0.25
def WIND_WEIGHT : ℚ := 0.20
def VISIBILITY_WEIGHT : ℚ := 0.15

def DRIZZLE_THRESHOLD : ℚ := 0.2
def RAIN_THRESHOLD : ℚ := 1.0
def HEAVY_RAIN_THRESHOLD : ℚ := 4.0
def ELEVATED_PROB_THRESHOLD : ℚ := 50
def HIGH_PROB_THRESHOLD : ℚ := 70

def COOL_THRESHOLD : ℚ := 18
def HOT_THRESHOLD : ℚ := 32

def GUST_CAUTION_THRESHOLD : ℚ := 35
def GUST_HIGH_THRESHOLD : ℚ := 55

def CLOUD_HIGH_THRESHOLD : ℚ := 80
def UV_HIGH_THRESHOLD : ℚ := 7

/-- `calculate_rain_score` of `risk.py`.  The `is_day` argument exists in the
source signature (default `None`) and is never read. -/
def calculate_rain_score (precipitation precipitation_prob : List (Option ℚ))
    (is_day : Option (List (Option Bool))) : ℚ :=
  if precipitation = [] ∨ precipitation_prob = [] then 0
  else
    let valid_precip := precipitation.filterMap id
    let valid_prob := precipitation_prob.filterMap id
    if valid_precip = [] ∨ valid_prob = [] then 0
    else
      let max_precip := listMax valid_precip
      let intensity_score : ℚ :=
        if HEAVY_RAIN_THRESHOLD ≤ max_precip then 100
        else if RAIN_THRESHOLD ≤ max_precip then 70
        else if DRIZZLE_THRESHOLD ≤ max_precip then 40
        else 0
      let max_prob := listMax valid_prob
      let prob_score : ℚ :=
        if HIGH_PROB_THRESHOLD ≤ max_prob then 100
        else if ELEVATED_PROB_THRESHOLD ≤ max_prob then 60
        else max_prob * 0.6
      let rain_score := intensity_score * 0.6 + prob_score * 0.4
      min rain_score 100

/-- `calculate_temperature_score` of `risk.py` (the unused `avg_temp` local
of the source is omitted; `is_day` is never read). -/
def calculate_temperature_score (apparent_temps : List (Option ℚ))
    (is_day : Option (List (Option Bool))) : ℚ :=
  if apparent_temps = [] then 0
  else
    let valid_temps := apparent_temps.filterMap id
    if valid_temps = [] then 0
    else
      let min_temp := listMin valid_temps
      let max_temp := listMax valid_temps
      let temp_score :=
        (if min_temp < COOL_THRESHOLD
         then min ((COOL_THRESHOLD - min_temp) * 5) 50 else 0) +
        (if HOT_THRESHOLD < max_temp
         then min ((max_temp - HOT_THRESHOLD) * 5) 50 else 0)
      min temp_score 100

/-- `calculate_wind_score` of `risk.py`. -/
def calculate_wind_score (wind_speeds wind_gusts : List (Option ℚ)) : ℚ :=
  if wind_speeds = [] ∧ wind_gusts = [] then 0
  else
    let speed_part : ℚ :=
      if wind_speeds ≠ [] then
        let valid_speeds := wind_speeds.filterMap id
        if valid_speeds ≠ [] then
          let max_speed := listMax valid_speeds
          if 30 < max_speed then min ((max_speed - 30) * 2) 40 else 0
        else 0
      else 0
    let gust_part : ℚ :=
      if wind_gusts ≠ [] then
        let valid_gusts := wind_gusts.filterMap id
        if valid_gusts ≠ [] then
          let max_gust := listMax valid_gusts
          if GUST_HIGH_THRESHOLD ≤ max_gust then 60
          else if GUST_CAUTION_THRESHOLD ≤ max_gust then 40
          else min (max_gust * 0.8) 30
        else 0
      else 0
    min (speed_part + gust_part) 100

/-- `calculate_visibility_score` of `risk.py`.  The optional arguments model
the Python defaults (`None`); Python truthiness of `visibility`, `uv_index`
and `is_day` is `≠ None` and non-emptiness.  The redundant `uv is not None`
test inside the source comprehension (its elements are already filtered
non-`None`) is dropped. -/
def calculate_visibility_score (cloud_cover : List (Option ℚ))
    (visibility : Option (List (Option ℚ))) (uv_index : Option (List (Option ℚ)))
    (is_day : Option (List (Option Bool))) : ℚ :=
  let cloud_part : ℚ :=
    if cloud_cover ≠ [] then
      let valid_cloud := cloud_cover.filterMap id
      if valid_cloud ≠ [] then
        let avg_cloud := valid_cloud.sum / (valid_cloud.length : ℚ)
        if CLOUD_HIGH_THRESHOLD < avg_cloud then 50
        else if 60 < avg_cloud then 30
        else 0
      else 0
    else 0
  let vis_part : ℚ :=
    match visibility with
    | none => 0
    | some vis_list =>
      if vis_list ≠ [] then
        let valid_visibility := vis_list.filterMap id
        if valid_visibility ≠ [] then
          let min_visibility := listMin valid_visibility
          if min_visibility < 5 then 40
          else if min_visibility < 10 then 20
          else 0
        else 0
      else 0
  let uv_part : ℚ :=
    match uv_index, is_day with
    | some uv_list, some day_list =>
      if uv_list ≠ [] ∧ day_list ≠ [] then
        let valid_uv := uv_list.filterMap id
        let valid_day := day_list.filterMap id
        if valid_uv ≠ [] ∧ valid_day ≠ [] then
          let day_uv := (valid_uv.zip valid_day).filterMap
            (fun p => if p.2 then some p.1 else none)
          if day_uv ≠ [] then
            if UV_HIGH_THRESHOLD ≤ listMax day_uv then 30 else 0
          else 0
        else 0
      else 0
    | _, _ => 0
  min (cloud_part + vis_part + uv_part) 100

/-! ## Data model (`app/core/schemas.py`), restricted to the fields the risk
engine reads; the remaining fields of the Pydantic models are never consumed
by `risk.py` and are omitted. -/

/-- `OpenMeteoHourly` of `schemas.py` (fields read by the risk engine; note
the schema has no hourly UV-index field). -/
structure OpenMeteoHourly where
  temperature_2m : List (Option ℚ)
  apparent_temperature : List (Option ℚ)
  precipitation : List (Option ℚ)
  precipitation_probability : List (Option ℚ)
  wind_speed_10m : List (Option ℚ)
  wind_gusts_10m : List (Option ℚ)
  cloud_cover : List (Option ℚ)
  visibility : List (Option ℚ)
  is_day : List (Option Bool)
deriving DecidableEq, Repr

/-- `OpenMeteoCurrent` of `schemas.py` (field read by the risk engine). -/
structure OpenMeteoCurrent where
  temperature_2m : Option ℚ
deriving DecidableEq, Repr

/-- `GoogleWeatherCurrent` of `schemas.py` (fields relevant to the risk
engine: `temperature` is read by `calculate_confidence`; `uv_index` is the
only UV datum reaching the composite pipeline and is never read). -/
structure GoogleWeatherCurrent where
  temperature : Option ℚ
  uv_index : Option ℚ
deriving DecidableEq, Repr

/-- The `confidence_factors` list built by `calculate_confidence` of
`risk.py`: a data-completeness fraction over the four key hourly fields (when
hourly data is present and at least one key field is a non-empty list), a
cross-provider temperature-agreement factor (when both current readings carry
temperatures), and the fixed baseline `0.7`. -/
def confidence_factors (hourly_data : Option OpenMeteoHourly)
    (current_data : Option OpenMeteoCurrent)
    (google_data : Option GoogleWeatherCurrent) : List ℚ :=
  ((match hourly_data with
   | none => []
   | some h =>
     let key_fields := [h.temperature_2m, h.precipitation,
                        h.precipitation_probability, h.wind_speed_10m]
     let present_fields := key_fields.filter (fun f => decide (f ≠ []))
     let total_fields := present_fields.length
     let complete_fields :=
       (present_fields.filter (fun f => decide (f.filterMap id ≠ []))).length
     if 0 < total_fields then [(complete_fields : ℚ) / (total_fields : ℚ)]
     else []) : List ℚ) ++
  ((match current_data, google_data with
   | some c, some g =>
     match c.temperature_2m, g.temperature with
     | some t1, some t2 =>
       let temp_diff := |t1 - t2|
       if temp_diff < 2 then [0.8]
       else if temp_diff < 5 then [0.6]
       else [0.3]
     | _, _ => []
   | _, _ => []) : List ℚ) ++
  [(0.7 : ℚ)]

/-- `calculate_confidence` of `risk.py`. -/
def calculate_confidence (hourly_data : Option OpenMeteoHourly)
    (current_data : Option OpenMeteoCurrent)
    (google_data : Option GoogleWeatherCurrent) : String × ℚ :=
  let factors := confidence_factors hourly_data current_data google_data
  let confidence_value : ℚ :=
    if factors ≠ [] then factors.sum / (factors.length : ℚ) else 0.5
  let confidence_level :=
    if 0.8 ≤ confidence_value then "High"
    else if 0.6 ≤ confidence_value then "Medium"
    else "Low"
  (confidence_level, confidence_value)

/-- `RiskScore` of `schemas.py`. -/
structure RiskScore where
  composite_score : ℚ
  rain_score : ℚ
  temperature_score : ℚ
  wind_score : ℚ
  visibility_score : ℚ
  confidence : String
  confidence_value : ℚ
deriving DecidableEq, Repr

/-- `calculate_composite_risk_score` of `risk.py`.  The four sub-scores are
zero when `hourly_data` is `None`; the visibility scorer is invoked with
`uv_index = None` (the hourly schema carries no UV series).  The `or []`
coercions of the source are identities on the non-optional list fields. -/
def calculate_composite_risk_score (hourly_data : Option OpenMeteoHourly)
    (current_data : Option OpenMeteoCurrent)
    (google_data : Option GoogleWeatherCurrent) : RiskScore :=
  let scores : ℚ × ℚ × ℚ × ℚ :=
    match hourly_data with
    | none => (0, 0, 0, 0)
    | some h =>
      (calculate_rain_score h.precipitation h.precipitation_probability
         (some h.is_day),
       calculate_temperature_score h.apparent_temperature (some h.is_day),
       calculate_wind_score h.wind_speed_10m h.wind_gusts_10m,
       calculate_visibility_score h.cloud_cover (some h.visibility) none
         (some h.is_day))
  let composite_score :=
    scores.1 * RAIN_WEIGHT + scores.2.1 * TEMPERATURE_WEIGHT +
    scores.2.2.1 * WIND_WEIGHT + scores.2.2.2 * VISIBILITY_WEIGHT
  let conf := calculate_confidence hourly_data current_data google_data
  ⟨pyRound1 composite_score, pyRound1 scores.1, pyRound1 scores.2.1,
   pyRound1 scores.2.2.1, pyRound1 scores.2.2.2, conf.1, pyRound2 conf.2⟩

/-- `get_risk_band` of `risk.py`. -/
def get_risk_band (score : ℚ) : String × String :=
  if 80 ≤ score then ("Very High", "red")
  else if 60 ≤ score then ("High", "orange")
  else if 40 ≤ score then ("Moderate", "yellow")
  else if 20 ≤ score then ("Low", "lightgreen")
  else ("Very Low", "green")

/-! ## Helper lemmas -/

theorem foldl_max_mem (l : List ℚ) (a : ℚ) : l.foldl max a = a ∨ l.foldl max a ∈ l := by
  induction l generalizing a with
  | nil => left; rfl
  | cons y ys ih =>
    rcases ih (max a y) with h | h
    · rcases max_choice a y with hm | hm
      · left; rw [List.foldl_cons, h, hm]
      · right; rw [List.foldl_cons, h, hm]; exact List.mem_cons_self _ _
    · right; exact List.mem_cons_of_mem _ h

theorem listMax_mem (l : List ℚ) (h : l ≠ []) : listMax l ∈ l := by
  match l with
  | x :: xs =>
    rcases foldl_max_mem xs x with h' | h'
    · rw [listMax, h']; exact List.mem_cons_self _ _
    · rw [listMax]; exact List.mem_cons_of_mem _ h'

theorem list_sum_nonneg (l : List ℚ) (h : ∀ x ∈ l, 0 ≤ x) : 0 ≤ l.sum := by
  induction l with
  | nil => simp
  | cons y ys ih =>
    simp only [List.sum_cons]
    have h1 := h y (List.mem_cons_self _ _)
    have h2 := ih (fun x hx => h x (List.mem_cons_of_mem _ hx))
    linarith

theorem list_sum_le_length (l : List ℚ) (h : ∀ x ∈ l, x ≤ 1) : l.sum ≤ l.length := by
  induction l with
  | nil => simp
  | cons y ys ih =>
    simp only [List.sum_cons, List.length_cons]
    have h1 := h y (List.mem_cons_self _ _)
    have h2 := ih (fun x hx => h x (List.mem_cons_of_mem _ hx))
    push_cast
    linarith

theorem mean_bounds (l : List ℚ) (hne : l ≠ []) (hb : ∀ x ∈ l, 0 ≤ x ∧ x ≤ 1) :
    0 ≤ l.sum / l.length ∧ l.sum / l.length ≤ 1 := by
  have hlen : 0 < (l.length : ℚ) := by
    have : 0 < l.length := List.length_pos.mpr hne
    exact_mod_cast this
  constructor
  · exact div_nonneg (list_sum_nonneg l fun x hx => (hb x hx).1) (le_of_lt hlen)
  · rw [div_le_one hlen]
    exact le_trans (list_sum_le_length l fun x hx => (hb x hx).2) (by norm_num)

/-- Shared helper: `calculate_rain_score` returns `0` whenever either input
series has no present value (lines 41–49 of `risk.py`). -/
theorem rain_score_zero_of_absent (precipitation precipitation_prob : List (Option ℚ))
    (is_day : Option (List (Option Bool)))
    (h : precipitation.filterMap id = [] ∨ precipitation_prob.filterMap id = []) :
    calculate_rain_score precipitation precipitation_prob is_day = 0 := by
  simp only [calculate_rain_score]
  split_ifs with h1 h2 <;> first | rfl | exact absurd h h2

/-! ## Claims -/

/-- C8: every input string other than Morning, Afternoon, Evening and Night
resolves to the Evening interval (18:00, 21:00) — minute counts 1080 and
1260 — and the four recognized names resolve to their fixed intervals. -/
theorem c8_unrecognized_daypart_resolves_to_evening :
    (∀ w : String, w ≠ "Morning" → w ≠ "Afternoon" → w ≠ "Evening" → w ≠ "Night" →
       get_time_window_bounds w = (EVENING_START, EVENING_END)) ∧
    get_time_window_bounds "Morning" = (6 * 60, 12 * 60) ∧
    get_time_window_bounds "Afternoon" = (12 * 60, 18 * 60) ∧
    get_time_window_bounds "Evening" = (18 * 60, 21 * 60) ∧
    get_time_window_bounds "Night" = (21 * 60, 6 * 60) ∧
    (EVENING_START, EVENING_END) = (18 * 60, 21 * 60) := by
  refine ⟨?_, by rfl, by rfl, by rfl, by rfl, by rfl⟩
  intro w h1 h2 h3 h4
  rw [get_time_window_bounds, if_neg h1, if_neg h2, if_neg h3, if_neg h4]

/-- C8 witness: the unrecognized day-part "Dawn" falls back to the Evening
interval. -/
theorem c8_witness : get_time_window_bounds "Dawn" = (EVENING_START, EVENING_END) :=
  c8_unrecognized_daypart_resolves_to_evening.1 "Dawn"
    (by decide) (by decide) (by decide) (by decide)

/-- C9: `calculate_rain_score` returns 0 whenever the precipitation series or
the precipitation-probability series is empty or contains only absent values,
regardless of the other series. -/
theorem c9_rain_zero_when_either_series_absent :
    ∀ (precipitation precipitation_prob : List (Option ℚ))
      (is_day : Option (List (Option Bool))),
      precipitation.filterMap id = [] ∨ precipitation_prob.filterMap id = [] →
      calculate_rain_score precipitation precipitation_prob is_day = 0 :=
  fun p q d h => rain_score_zero_of_absent p q d h

/-- C9 witness: a precipitation series above the heavy-rain threshold still
scores 0 when the probability series is all-absent. -/
theorem c9_witness : calculate_rain_score [some 10] [none] none = 0 :=
  c9_rain_zero_when_either_series_absent [some 10] [none] none (Or.inr (by decide))

/-- Shared helper: the first component of the slicing loop is the in-window
filter of the timestamp list, in input order. -/
theorem sliceLoop_fst (s e : Int) (data : List (Option ℚ)) :
    ∀ (ts : List Int) (i : Nat),
      (sliceLoop s e data ts i).1 = ts.filter (fun t => decide (s ≤ t ∧ t < e)) := by
  intro ts
  induction ts with
  | nil => intro i; rfl
  | cons t ts ih =>
    intro i
    by_cases h : s ≤ t ∧ t < e
    · simp [sliceLoop, h, ih (i + 1)]
    · simp [sliceLoop, h, ih (i + 1)]

/-- Shared helper: the second component of the slicing loop pairs each
selected timestamp with the data value at its original index, `none` when the
index is out of range. -/
theorem sliceLoop_snd (s e : Int) (data : List (Option ℚ)) :
    ∀ (ts : List Int) (i : Nat),
      (sliceLoop s e data ts i).2 =
        ((List.enumFrom i ts).filter (fun p => decide (s ≤ p.2 ∧ p.2 < e))).map
          (fun p => data[p.1]?.getD none) := by
  intro ts
  induction ts with
  | nil => intro i; rfl
  | cons t ts ih =>
    intro i
    by_cases h : s ≤ t ∧ t < e
    · simp [sliceLoop, List.enumFrom, h, ih (i + 1)]
    · simp [sliceLoop, List.enumFrom, h, ih (i + 1)]

/-- C5: the window bounds of the slicer anchor `target_date` at local midnight and
add the start of the resolved interval and end times of day; for Morning,
Afternoon and Evening the end is strictly after the start and both bounds
fall on the calendar day of `target_date`, while for Night the end falls on the
next calendar day (and the start still on `target_date`). -/
theorem c5_window_bounds_anchoring :
    ∀ (target_date : Int) (w : String),
      (window_datetimes target_date w).1 =
        midnightOf target_date + (get_time_window_bounds w).1 ∧
      (window_datetimes target_date w).2 =
        (if w = "Night" then midnightOf (target_date + 1440)
         else midnightOf target_date) + (get_time_window_bounds w).2 ∧
      (w = "Morning" ∨ w = "Afternoon" ∨ w = "Evening" →
         (window_datetimes target_date w).1 < (window_datetimes target_date w).2 ∧
         dayOf (window_datetimes target_date w).1 = dayOf target_date ∧
         dayOf (window_datetimes target_date w).2 = dayOf target_date) ∧
      (w = "Night" →
         dayOf (window_datetimes target_date w).1 = dayOf target_date ∧
         dayOf (window_datetimes target_date w).2 = dayOf target_date + 1) := by
  intro t w
  refine ⟨?_, ?_, ?_, ?_⟩
  · by_cases h : w = "Night" <;> simp [window_datetimes, replaceTime, h]
  · by_cases h : w = "Night" <;> simp [window_datetimes, replaceTime, h]
  · rintro (h | h | h) <;> subst h <;>
      simp only [window_datetimes, get_time_window_bounds, replaceTime, midnightOf,
        dayOf, MORNING_START, MORNING_END, AFTERNOON_START, AFTERNOON_END,
        EVENING_START, EVENING_END, String.reduceEq, if_false, if_true,
        reduceIte] <;>
      norm_num <;> omega
  · intro h
    subst h
    simp only [window_datetimes, get_time_window_bounds, replaceTime, midnightOf,
      dayOf, NIGHT_START, NIGHT_END, String.reduceEq, if_false, if_true,
      reduceIte] <;>
    norm_num <;> constructor <;> omega

/-- C5 witness: for the Evening window on day 0 the bounds are 18:00 and
21:00 of day 0, and for Night the end falls on day 1. -/
theorem c5_witness :
    (window_datetimes 0 "Evening").1 < (window_datetimes 0 "Evening").2 ∧
    dayOf (window_datetimes 0 "Night").2 = dayOf 0 + 1 :=
  ⟨((c5_window_bounds_anchoring 0 "Evening").2.2.1 (Or.inr (Or.inr rfl))).1,
   ((c5_window_bounds_anchoring 0 "Night").2.2.2 rfl).2⟩

/-- C4 counterexample: with timestamp 1110 (18:30 of day 0) inside the
Evening window but an empty values list, the slicer returns no pairs, while
the claim requires the selected timestamp paired with `None`. -/
theorem c4_counterexample :
    ¬ ((slice_hourly_data_for_window [1110] ([] : List (Option ℚ)) 0 "Evening" "UTC").1 =
        ([1110] : List Int).filter
          (fun t => decide ((window_datetimes 0 "Evening").1 ≤ t ∧
            t < (window_datetimes 0 "Evening").2))) := by
  decide

/-- C4 (amended with a non-empty values list): the slicer returns exactly the
timestamps with `start ≤ t < end` in input order (a sublist of the input),
each paired with the value at its original index, `none` when the values list
is shorter. -/
theorem c4_slice_selects_half_open_window :
    ∀ (times : List Int) (data : List (Option ℚ)) (target_date : Int)
      (time_window timezone_str : String),
      data ≠ [] →
      (slice_hourly_data_for_window times data target_date time_window timezone_str).1 =
          times.filter
            (fun t => decide ((window_datetimes target_date time_window).1 ≤ t ∧
              t < (window_datetimes target_date time_window).2)) ∧
      (slice_hourly_data_for_window times data target_date time_window timezone_str).1.Sublist
          times ∧
      (slice_hourly_data_for_window times data target_date time_window timezone_str).2 =
          ((List.enumFrom 0 times).filter
            (fun p => decide ((window_datetimes target_date time_window).1 ≤ p.2 ∧
              p.2 < (window_datetimes target_date time_window).2))).map
            (fun p => data[p.1]?.getD none) := by
  intro times data target w tz hdata
  by_cases htimes : times = []
  · subst htimes
    simp [slice_hourly_data_for_window]
  · have hguard : ¬ (times = [] ∨ data = []) := by
      rintro (h | h) <;> [exact htimes h; exact hdata h]
    refine ⟨?_, ?_, ?_⟩
    · rw [slice_hourly_data_for_window, if_neg hguard]
      exact sliceLoop_fst _ _ _ _ _
    · rw [slice_hourly_data_for_window, if_neg hguard, sliceLoop_fst]
      exact List.filter_sublist _
    · rw [slice_hourly_data_for_window, if_neg hguard]
      exact sliceLoop_snd _ _ _ _ _

/-- C4 witness: timestamps 1110 and 2000 on day 0, Evening window, a
one-element values list: timestamp 1110 is selected with its value, 2000 is
outside the window. -/
theorem c4_witness :
    (slice_hourly_data_for_window [1110, 2000] [some 1] 0 "Evening" "UTC").1 =
      ([1110, 2000] : List Int).filter
        (fun t => decide ((window_datetimes 0 "Evening").1 ≤ t ∧
          t < (window_datetimes 0 "Evening").2)) :=
  (c4_slice_selects_half_open_window [1110, 2000] [some 1] 0 "Evening" "UTC"
    (by decide)).1

/-- C1 counterexample: a slice consisting of one absent value (timestamp 1110
in the Evening window of day 0, value `None`): the stats report `count = 1`
although the slice has zero non-null values and all aggregate fields are
null, refuting both `count == number of non-null values` and
`count == 0 ⟺ mean/min/max/sum are null`. -/
theorem c1_counterexample :
    ¬ ((get_daypart_stats [1110] [none] 0 "Evening" "UTC").count =
        ((slice_hourly_data_for_window [1110] [none] 0 "Evening" "UTC").2.filterMap
          id).length ∧
       ((get_daypart_stats [1110] [none] 0 "Evening" "UTC").count = 0 ↔
        (get_daypart_stats [1110] [none] 0 "Evening" "UTC").mean = none ∧
        (get_daypart_stats [1110] [none] 0 "Evening" "UTC").min = none ∧
        (get_daypart_stats [1110] [none] 0 "Evening" "UTC").max = none ∧
        (get_daypart_stats [1110] [none] 0 "Evening" "UTC").sum = none)) := by
  decide

/-- C1 (amended): `count` never exceeds the slice length; `count` equals the
number of non-null values whenever the slice has at least one non-null value;
`count = 0` exactly when the slice is empty; and the aggregate fields are all
null exactly when the slice has no non-null values (a non-empty all-null
slice reports `count = slice length` with null aggregates). -/
theorem c1_daypart_stats_invariants :
    ∀ (times : List Int) (data : List (Option ℚ)) (target_date : Int)
      (time_window timezone_str : String),
      (get_daypart_stats times data target_date time_window timezone_str).count ≤
          (slice_hourly_data_for_window times data target_date time_window
            timezone_str).2.length ∧
      (0 < ((slice_hourly_data_for_window times data target_date time_window
              timezone_str).2.filterMap id).length →
         (get_daypart_stats times data target_date time_window timezone_str).count =
           ((slice_hourly_data_for_window times data target_date time_window
              timezone_str).2.filterMap id).length) ∧
      ((get_daypart_stats times data target_date time_window timezone_str).count = 0 ↔
         (slice_hourly_data_for_window times data target_date time_window
           timezone_str).2 = []) ∧
      (((get_daypart_stats times data target_date time_window timezone_str).mean = none ∧
        (get_daypart_stats times data target_date time_window timezone_str).min = none ∧
        (get_daypart_stats times data target_date time_window timezone_str).max = none ∧
        (get_daypart_stats times data target_date time_window timezone_str).sum = none) ↔
         (slice_hourly_data_for_window times data target_date time_window
           timezone_str).2.filterMap id = []) := by
  intro times data target w tz
  simp only [get_daypart_stats]
  split_ifs with h1 h2
  · refine ⟨by simp [h1], ?_, by simp [h1], by simp [h1]⟩
    intro hpos
    rw [h1] at hpos
    simp at hpos
  · have hlen : 0 < (slice_hourly_data_for_window times data target w tz).2.length :=
      List.length_pos.mpr h1
    refine ⟨le_refl _, ?_, ?_, ?_⟩
    · intro hpos
      rw [h2] at hpos
      simp at hpos
    · constructor
      · intro hc; exact absurd hc (Nat.pos_iff_ne_zero.mp hlen)
      · intro hc; exact absurd hc h1
    · simp [h2]
  · have hvpos : 0 < ((slice_hourly_data_for_window times data target w tz).2.filterMap
        id).length := List.length_pos.mpr h2
    refine ⟨List.length_filterMap_le _ _, fun _ => rfl, ?_, ?_⟩
    · constructor
      · intro hc; exact absurd hc (Nat.pos_iff_ne_zero.mp hvpos)
      · intro hc
        rw [hc] at hvpos
        simp at hvpos
    · constructor
      · rintro ⟨hm, _, _, _⟩; exact absurd hm (by simp)
      · intro hc; exact absurd hc h2

/-- C1 witness: a slice holding one present value reports `count = 1`, the
number of non-null values. -/
theorem c1_witness :
    (get_daypart_stats [1110] [some 2] 0 "Evening" "UTC").count =
      ((slice_hourly_data_for_window [1110] [some 2] 0 "Evening" "UTC").2.filterMap
        id).length :=
  (c1_daypart_stats_invariants [1110] [some 2] 0 "Evening" "UTC").2.1 (by decide)

/-- Shared helper: the rain score lies in [0, 100] when every present
probability value is nonnegative. -/
theorem rain_score_bounds :
    ∀ (precipitation precipitation_prob : List (Option ℚ))
      (is_day : Option (List (Option Bool))),
      (∀ x ∈ precipitation_prob.filterMap id, 0 ≤ x) →
      0 ≤ calculate_rain_score precipitation precipitation_prob is_day ∧
      calculate_rain_score precipitation precipitation_prob is_day ≤ 100 := by
  intro p q d hq
  simp only [calculate_rain_score]
  rcases Classical.em (p = [] ∨ q = []) with h1 | h1
  · rw [if_pos h1]; norm_num
  · rw [if_neg h1]
    rcases Classical.em (p.filterMap id = [] ∨ q.filterMap id = []) with h2 | h2
    · rw [if_pos h2]; norm_num
    · rw [if_neg h2]
      rcases not_or.mp h2 with ⟨hvp, hvq⟩
      have hm : 0 ≤ listMax (q.filterMap id) := hq _ (listMax_mem _ hvq)
      refine ⟨le_min ?_ (by norm_num), min_le_right _ _⟩
      rw [DRIZZLE_THRESHOLD, RAIN_THRESHOLD, HEAVY_RAIN_THRESHOLD,
        ELEVATED_PROB_THRESHOLD, HIGH_PROB_THRESHOLD]
      split_ifs <;> linarith

/-- Shared helper: the temperature score lies in [0, 100] for any input. -/
theorem temperature_score_bounds :
    ∀ (apparent_temps : List (Option ℚ)) (is_day : Option (List (Option Bool))),
      0 ≤ calculate_temperature_score apparent_temps is_day ∧
      calculate_temperature_score apparent_temps is_day ≤ 100 := by
  intro tl d
  simp only [calculate_temperature_score]
  rcases Classical.em (tl = []) with h1 | h1
  · rw [if_pos h1]; norm_num
  · rw [if_neg h1]
    rcases Classical.em (tl.filterMap id = []) with h2 | h2
    · rw [if_pos h2]; norm_num
    · rw [if_neg h2]
      refine ⟨le_min (add_nonneg ?_ ?_) (by norm_num), min_le_right _ _⟩
      · rw [COOL_THRESHOLD]
        split_ifs with hA
        · exact le_min (by linarith) (by norm_num)
        · exact le_refl 0
      · rw [HOT_THRESHOLD]
        split_ifs with hB
        · exact le_min (by linarith) (by norm_num)
        · exact le_refl 0

/-- Shared helper: the wind score lies in [0, 100] when every present gust
value is nonnegative. -/
theorem wind_score_bounds :
    ∀ (wind_speeds wind_gusts : List (Option ℚ)),
      (∀ x ∈ wind_gusts.filterMap id, 0 ≤ x) →
      0 ≤ calculate_wind_score wind_speeds wind_gusts ∧
      calculate_wind_score wind_speeds wind_gusts ≤ 100 := by
  intro sp g hg
  simp only [calculate_wind_score]
  rcases Classical.em (sp = [] ∧ g = []) with h0 | h0
  · rw [if_pos h0]; norm_num
  · rw [if_neg h0]
    refine ⟨le_min (add_nonneg ?_ ?_) (by norm_num), min_le_right _ _⟩
    · split_ifs with hA hB hC
      · exact le_min (by linarith) (by norm_num)
      · exact le_refl 0
      · exact le_refl 0
      · exact le_refl 0
    · rw [GUST_CAUTION_THRESHOLD, GUST_HIGH_THRESHOLD]
      split_ifs with hA hB hC hD
      · norm_num
      · norm_num
      · have hm : 0 ≤ listMax (g.filterMap id) := hg _ (listMax_mem _ hB)
        exact le_min (by linarith) (by norm_num)
      · exact le_refl 0
      · exact le_refl 0

/-- Shared helper: the visibility score lies in [0, 100] for any input. -/
theorem visibility_score_bounds :
    ∀ (cloud_cover : List (Option ℚ)) (visibility uv_index : Option (List (Option ℚ)))
      (is_day : Option (List (Option Bool))),
      0 ≤ calculate_visibility_score cloud_cover visibility uv_index is_day ∧
      calculate_visibility_score cloud_cover visibility uv_index is_day ≤ 100 := by
  intro cc vis uv d
  simp only [calculate_visibility_score]
  refine ⟨le_min (add_nonneg (add_nonneg ?_ ?_) ?_) (by norm_num), min_le_right _ _⟩
  · split_ifs <;> norm_num
  · rcases vis with _ | vl
    · norm_num
    · dsimp only
      split_ifs <;> norm_num
  · rcases uv with _ | ul <;> rcases d with _ | dl
    · norm_num
    · norm_num
    · norm_num
    · dsimp only
      split_ifs <;> norm_num

/-- Shared helper: the temperature score is 0 on an empty or all-absent
series. -/
theorem temperature_score_zero_of_absent :
    ∀ (apparent_temps : List (Option ℚ)) (is_day : Option (List (Option Bool))),
      apparent_temps.filterMap id = [] →
      calculate_temperature_score apparent_temps is_day = 0 := by
  intro tl d h
  simp only [calculate_temperature_score]
  split_ifs with h1 h2 <;> first | rfl | exact absurd h h2

/-- Shared helper: the wind score is 0 when both series are empty or
all-absent. -/
theorem wind_score_zero_of_absent :
    ∀ (wind_speeds wind_gusts : List (Option ℚ)),
      wind_speeds.filterMap id = [] → wind_gusts.filterMap id = [] →
      calculate_wind_score wind_speeds wind_gusts = 0 := by
  intro sp g hs hg
  simp only [calculate_wind_score]
  rcases Classical.em (sp = [] ∧ g = []) with h0 | h0
  · rw [if_pos h0]
  · rw [if_neg h0]
    simp [hs, hg]

/-- Shared helper: the visibility score is 0 when every input series is
empty or all-absent. -/
theorem visibility_score_zero_of_absent :
    ∀ (cloud_cover : List (Option ℚ)) (visibility uv_index : Option (List (Option ℚ)))
      (is_day : Option (List (Option Bool))),
      cloud_cover.filterMap id = [] →
      (∀ l, visibility = some l → l.filterMap id = []) →
      (∀ l, uv_index = some l → l.filterMap id = []) →
      calculate_visibility_score cloud_cover visibility uv_index is_day = 0 := by
  intro cc vis uv d h1 h2 h3
  simp only [calculate_visibility_score]
  rcases vis with _ | vl <;> rcases uv with _ | ul <;> rcases d with _ | dl <;>
    dsimp only <;> simp [h1, h2, h3]

/-- C2 counterexample: with a negative present probability value the rain
score is −24, outside [0, 100], so the claim as stated (over arbitrary
optional numbers) fails. -/
theorem c2_counterexample :
    ¬ (0 ≤ calculate_rain_score [some 0] [some (-100)] none) := by
  norm_num [calculate_rain_score, listMax, List.filterMap_cons, List.cons_ne_nil,
    ne_eq, DRIZZLE_THRESHOLD, RAIN_THRESHOLD, HEAVY_RAIN_THRESHOLD,
    ELEVATED_PROB_THRESHOLD, HIGH_PROB_THRESHOLD]

/-- C2 (amended to series whose present values are nonnegative, the domain of
the probability/gust inputs): every factor scorer returns a value in
[0, 100] — the rain scorer when its probability values are nonnegative, the
wind scorer when its gust values are nonnegative, the temperature and
visibility scorers unconditionally — and every scorer returns exactly 0 when
its input series are empty or all-absent. -/
theorem c2_factor_scores_in_range :
    (∀ (p q : List (Option ℚ)) (d : Option (List (Option Bool))),
       (∀ x ∈ q.filterMap id, 0 ≤ x) →
       0 ≤ calculate_rain_score p q d ∧ calculate_rain_score p q d ≤ 100) ∧
    (∀ (t : List (Option ℚ)) (d : Option (List (Option Bool))),
       0 ≤ calculate_temperature_score t d ∧ calculate_temperature_score t d ≤ 100) ∧
    (∀ (s g : List (Option ℚ)),
       (∀ x ∈ g.filterMap id, 0 ≤ x) →
       0 ≤ calculate_wind_score s g ∧ calculate_wind_score s g ≤ 100) ∧
    (∀ (cc : List (Option ℚ)) (vis uv : Option (List (Option ℚ)))
       (d : Option (List (Option Bool))),
       0 ≤ calculate_visibility_score cc vis uv d ∧
       calculate_visibility_score cc vis uv d ≤ 100) ∧
    (∀ (p q : List (Option ℚ)) (d : Option (List (Option Bool))),
       p.filterMap id = [] → q.filterMap id = [] →
       calculate_rain_score p q d = 0) ∧
    (∀ (t : List (Option ℚ)) (d : Option (List (Option Bool))),
       t.filterMap id = [] → calculate_temperature_score t d = 0) ∧
    (∀ (s g : List (Option ℚ)),
       s.filterMap id = [] → g.filterMap id = [] → calculate_wind_score s g = 0) ∧
    (∀ (cc : List (Option ℚ)) (vis uv : Option (List (Option ℚ)))
       (d : Option (List (Option Bool))),
       cc.filterMap id = [] →
       (∀ l, vis = some l → l.filterMap id = []) →
       (∀ l, uv = some l → l.filterMap id = []) →
       calculate_visibility_score cc vis uv d = 0) :=
  ⟨rain_score_bounds, temperature_score_bounds, wind_score_bounds,
   visibility_score_bounds,
   fun p q d hp _hq => rain_score_zero_of_absent p q d (Or.inl hp),
   temperature_score_zero_of_absent, wind_score_zero_of_absent,
   visibility_score_zero_of_absent⟩

/-- C2 witness: concrete inputs — heavy rain 5 mm/h at probability 80 scores
inside [0, 100]; gust 60 km/h scores inside [0, 100]; all-absent temperature
and empty visibility inputs score 0. -/
theorem c2_witness :
    (0 ≤ calculate_rain_score [some 5] [some 80] none ∧
     calculate_rain_score [some 5] [some 80] none ≤ 100) ∧
    (0 ≤ calculate_wind_score [some 20] [some 60] ∧
     calculate_wind_score [some 20] [some 60] ≤ 100) ∧
    calculate_temperature_score [none] none = 0 ∧
    calculate_visibility_score [] none none none = 0 :=
  ⟨c2_factor_scores_in_range.1 [some 5] [some 80] none (by decide),
   c2_factor_scores_in_range.2.2.1 [some 20] [some 60] (by decide),
   c2_factor_scores_in_range.2.2.2.2.2.1 [none] none (by decide),
   c2_factor_scores_in_range.2.2.2.2.2.2.2 [] none none none (by decide)
     (fun l h => by cases h) (fun l h => by cases h)⟩

/-- C3: the composite score is the fixed weighted sum
`0.40*rain + 0.25*temperature + 0.20*wind + 0.15*visibility` of the (unrounded)
sub-scores rounded to one decimal; the risk band partitions scores at
80/60/40/20; and the quadruple (rain=100, temp=0, wind=60, visibility=0)
yields composite 52.0 with band Moderate. -/
theorem c3_composite_weighted_sum_and_bands :
    (∀ (h : OpenMeteoHourly) (c : Option OpenMeteoCurrent)
       (g : Option GoogleWeatherCurrent),
       (calculate_composite_risk_score (some h) c g).composite_score =
         pyRound1 (0.40 * calculate_rain_score h.precipitation
             h.precipitation_probability (some h.is_day) +
           0.25 * calculate_temperature_score h.apparent_temperature (some h.is_day) +
           0.20 * calculate_wind_score h.wind_speed_10m h.wind_gusts_10m +
           0.15 * calculate_visibility_score h.cloud_cover (some h.visibility) none
             (some h.is_day))) ∧
    (∀ s : ℚ,
       ((get_risk_band s).1 = "Very High" ↔ 80 ≤ s) ∧
       ((get_risk_band s).1 = "High" ↔ 60 ≤ s ∧ s < 80) ∧
       ((get_risk_band s).1 = "Moderate" ↔ 40 ≤ s ∧ s < 60) ∧
       ((get_risk_band s).1 = "Low" ↔ 20 ≤ s ∧ s < 40) ∧
       ((get_risk_band s).1 = "Very Low" ↔ s < 20)) ∧
    (pyRound1 (100 * RAIN_WEIGHT + 0 * TEMPERATURE_WEIGHT + 60 * WIND_WEIGHT +
        0 * VISIBILITY_WEIGHT) = 52 ∧
     (get_risk_band 52).1 = "Moderate") := by
  refine ⟨?_, ?_, ?_, ?_⟩
  · intro h c g
    simp only [calculate_composite_risk_score]
    exact congrArg pyRound1 (by
      rw [RAIN_WEIGHT, TEMPERATURE_WEIGHT, WIND_WEIGHT, VISIBILITY_WEIGHT]; ring)
  · intro s
    simp only [get_risk_band]
    split_ifs with h1 h2 h3 h4 <;>
      refine ⟨?_, ?_, ?_, ?_, ?_⟩ <;>
      simp <;>
      first
        | linarith
        | (constructor <;> linarith)
        | (intro ha; linarith)
        | (intro ha hb; linarith)
  · norm_num [pyRound1, pyRoundHalfToEven, RAIN_WEIGHT, TEMPERATURE_WEIGHT,
      WIND_WEIGHT, VISIBILITY_WEIGHT]
  · norm_num [get_risk_band]

/-- Shared helper: every confidence factor lies in [0, 1]. -/
theorem confidence_factors_mem_bounds :
    ∀ (h : Option OpenMeteoHourly) (c : Option OpenMeteoCurrent)
      (g : Option GoogleWeatherCurrent) (x : ℚ),
      x ∈ confidence_factors h c g → 0 ≤ x ∧ x ≤ 1 := by
  intro h c g x hx
  simp only [confidence_factors, List.mem_append] at hx
  rcases hx with (hx | hx) | hx
  · rcases h with _ | hh
    · simp at hx
    · dsimp only at hx
      split_ifs at hx with ht
      · simp only [List.mem_singleton] at hx
        subst hx
        constructor
        · positivity
        · rw [div_le_one (by exact_mod_cast ht)]
          exact_mod_cast List.length_filter_le _ _
      · simp at hx
  · rcases c with _ | cc <;> rcases g with _ | gg
    · simp at hx
    · simp at hx
    · simp at hx
    · obtain ⟨ct⟩ := cc
      obtain ⟨gt, guv⟩ := gg
      rcases ct with _ | t1 <;> rcases gt with _ | t2 <;> dsimp only at hx
      · simp at hx
      · simp at hx
      · simp at hx
      · split_ifs at hx <;> simp only [List.mem_singleton] at hx <;> subst hx <;>
          norm_num
  · simp only [List.mem_singleton] at hx
    subst hx
    norm_num

/-- Shared helper: the factor list always contains the baseline 0.7 and is
never empty. -/
theorem confidence_factors_ne_nil :
    ∀ (h : Option OpenMeteoHourly) (c : Option OpenMeteoCurrent)
      (g : Option GoogleWeatherCurrent), confidence_factors h c g ≠ [] := by
  intro h c g hnil
  have hmem : (0.7 : ℚ) ∈ confidence_factors h c g := by
    simp [confidence_factors]
  rw [hnil] at hmem
  exact (List.not_mem_nil _) hmem

/-- C6: the confidence value is the arithmetic mean of the present factors
(completeness when hourly data has a non-empty key field, agreement when both
current temperatures exist, and the ever-present 0.7 baseline), lies in
[0, 1], and the label is High iff value ≥ 0.8, Medium iff 0.6 ≤ value < 0.8,
Low iff value < 0.6. -/
theorem c6_confidence_mean_bounds_and_labels :
    ∀ (h : Option OpenMeteoHourly) (c : Option OpenMeteoCurrent)
      (g : Option GoogleWeatherCurrent),
      (calculate_confidence h c g).2 =
        (confidence_factors h c g).sum / ((confidence_factors h c g).length : ℚ) ∧
      0 ≤ (calculate_confidence h c g).2 ∧
      (calculate_confidence h c g).2 ≤ 1 ∧
      ((calculate_confidence h c g).1 = "High" ↔
        0.8 ≤ (calculate_confidence h c g).2) ∧
      ((calculate_confidence h c g).1 = "Medium" ↔
        0.6 ≤ (calculate_confidence h c g).2 ∧ (calculate_confidence h c g).2 < 0.8) ∧
      ((calculate_confidence h c g).1 = "Low" ↔
        (calculate_confidence h c g).2 < 0.6) := by
  intro h c g
  have hne := confidence_factors_ne_nil h c g
  have hb := mean_bounds _ hne (fun x hx => confidence_factors_mem_bounds h c g x hx)
  simp only [calculate_confidence, if_pos hne]
  refine ⟨trivial, hb.1, hb.2, ?_, ?_, ?_⟩ <;>
    split_ifs with h1 h2 <;>
    simp <;>
    first
      | linarith
      | (constructor <;> linarith)
      | (intro ha; linarith)
      | (intro ha hb2; linarith)

/-- C7: evaluation exhibiting the UV misalignment bug of
`calculate_visibility_score` — with `uv_index = [None, 8]` and
`is_day = [True, False]` the code pairs the lone present UV value 8 with the
day flag of sample 0 and adds +30, although no sample with a true is-day flag
has UV ≥ 7 (the inline comment says "Only consider UV during daytime"). -/
theorem c7_uv_bonus_from_positionally_misaligned_sample :
    calculate_visibility_score [] none (some [none, some 8])
        (some [some true, some false]) = 30 ∧
    ¬ (∃ p ∈ (([none, some 8] : List (Option ℚ)).zip
          ([some true, some false] : List (Option Bool))),
        p.2 = some true ∧ ∃ u, p.1 = some u ∧ UV_HIGH_THRESHOLD ≤ u) := by
  constructor
  · norm_num [calculate_visibility_score, listMax, List.filterMap_cons,
      UV_HIGH_THRESHOLD, List.cons_ne_nil, ne_eq]
  · decide

/-- C10: UV data cannot influence the risk score — the visibility
sub-score is computed with `uv_index = None`, and varying the only UV datum
among the pipeline inputs (`GoogleWeatherCurrent.uv_index`; the hourly schema
has no UV series) leaves the entire `RiskScore` unchanged. -/
theorem c10_uv_data_never_influences_risk_score :
    ∀ (h : OpenMeteoHourly) (oh : Option OpenMeteoHourly)
      (c : Option OpenMeteoCurrent) (g : GoogleWeatherCurrent) (uv uv' : Option ℚ),
      (calculate_composite_risk_score (some h) c (some g)).visibility_score =
        pyRound1 (calculate_visibility_score h.cloud_cover (some h.visibility) none
          (some h.is_day)) ∧
      calculate_composite_risk_score oh c (some ⟨g.temperature, uv⟩) =
        calculate_composite_risk_score oh c (some ⟨g.temperature, uv'⟩) := by
  intro h oh c g uv uv'
  constructor
  · rfl
  · rcases c with _ | cc <;> rfl
